import Mathlib

/-!
Verification development for the `dali_center` Home Assistant custom
integration.  Python source files are shallowly embedded as Lean
definitions: dictionaries become association lists with Python's
insert-or-overwrite semantics, `None` becomes `Option.none`, exceptions
become explicit outcome constructors, and CPython floats are modelled as
exact rationals with `int(...)` as truncation toward zero.
-/

namespace DaliCenter

/-- Python `int(q)` on a real number: truncation toward zero. -/
def pyTrunc (q : Rat) : Int :=
  if 0 ≤ q then q.floor else q.ceil

/-- A Python dict used as a string-keyed record (e.g. a device/group/scene
mapping in config flow).  `lookup` is `dict.get`. -/
abbrev PyObj := List (String × String)

/-- `d[k] = v` on a Python dict modelled as an association list: overwrite
in place when the key is present, append otherwise. -/
def dictInsert (d : List (String × String)) (k v : String) :
    List (String × String) :=
  if d.any (fun p => p.1 == k) then
    d.map (fun p => if p.1 == k then (k, v) else p)
  else
    d ++ [(k, v)]

/-- Key membership in a dict modelled as an association list
(Python `k in d`). -/
def hasKey (d : List (String × String)) (k : String) : Bool :=
  d.any (fun p => p.1 == k)

/-! ## helper.py -/

/-- The comprehension `[obj for obj in l if obj[attr_name] not in excluded]`:
each element's key is looked up (failing the whole call on a missing key,
Python's `KeyError`) and the element is kept when its key is not excluded. -/
def comprehensionFilter (l : List PyObj) (attr_name : String)
    (excluded : List String) : Option (List PyObj) :=
  match l with
  | [] => some []
  | o :: rest => do
    let k ← o.lookup attr_name
    let tail ← comprehensionFilter rest attr_name excluded
    if excluded.contains k then pure tail else pure (o :: tail)

/-- `helper.find_set_differences(list1, list2, attr_name)`.
Builds the two key sets then keeps, in order, the elements of each list
whose `attr_name` value does not occur among the other list's values. -/
def find_set_differences (list1 list2 : List PyObj) (attr_name : String) :
    Option (List PyObj × List PyObj) := do
  let set1_keys ← list1.mapM (fun o => o.lookup attr_name)
  let set2_keys ← list2.mapM (fun o => o.lookup attr_name)
  let unique1 ← comprehensionFilter list1 attr_name set2_keys
  let unique2 ← comprehensionFilter list2 attr_name set1_keys
  pure (unique1, unique2)

/-- The specification's description of the first component: the elements
of `list1` whose `attr_name` value equals no element of `list2`'s
`attr_name` value, in input order. -/
def specUniqueAgainst (l other : List PyObj) (attr_name : String) :
    List PyObj :=
  l.filter (fun o =>
    other.all (fun o2 => !(o2.lookup attr_name == o.lookup attr_name)))

/-! ## device_trigger.py -/

/-- `device_trigger.get_panel_button_count`: dict lookup with default 4. -/
def get_panel_button_count (dev_type : String) : Int :=
  let button_count_map : List (String × Int) :=
    [("0302", 2), ("0304", 4), ("0306", 6), ("0308", 8)]
  (button_count_map.lookup dev_type).getD 4

/-- Python `str.title()` character walk: an alphabetic character is
upper-cased after a non-alphabetic one and lower-cased otherwise. -/
def pyTitleGo : List Char → Bool → List Char
  | [], _ => []
  | c :: rest, prevAlpha =>
    (if c.isAlpha then (if prevAlpha then c.toLower else c.toUpper) else c)
      :: pyTitleGo rest c.isAlpha

/-- Python `str.title()`. -/
def pyTitle (s : String) : String :=
  String.mk (pyTitleGo s.data false)

/-- An entity-registry entry as `fire_device_triggers` reads it. -/
structure EntityEntry where
  domain : String
  unique_id : String
  entity_id : String
deriving DecidableEq, Repr

/-- A device-registry entry as `fire_device_triggers` reads it. -/
structure DeviceEntry where
  name : String
deriving DecidableEq, Repr

/-- The environment `fire_device_triggers` runs against: the vendor
`BUTTON_EVENTS` table (from `PySrDaliGateway.const`, outside this
repository, hence abstract), the device-registry lookup of `device_id`,
and the entity-registry entries for that device. -/
structure TriggerEnv where
  buttonEvents : Int → Option String
  device : Option DeviceEntry
  entities : List EntityEntry

/-- One element of the vendor status `property_list` as the trigger code
reads it: `prop.get("dpid")` and `prop.get("keyNo")`. -/
structure TriggerProp where
  dpid : Option Int
  keyNo : Option Int
deriving DecidableEq, Repr

/-- Observable effects of `fire_device_triggers`, in order. -/
inductive FireEffect
  | pressService (entity_id : String)
  | busEvent (event_type device_id trigger_type : String)
  | logbook (name message : String)
deriving DecidableEq, Repr

/-- `device_trigger._trigger_button_press`: no device, nothing; otherwise
the first registry entry of domain `button` whose unique id ends in
`_btn_{button_id}` gets a `button.press` service call and a logbook line. -/
def triggerButtonPress (env : TriggerEnv) (button_id : Int) :
    List FireEffect :=
  match env.device with
  | none => []
  | some device =>
    match env.entities.find? (fun e =>
        e.domain == "button" &&
        e.unique_id.endsWith ("_btn_" ++ toString button_id)) with
    | some e =>
        [FireEffect.pressService e.entity_id,
         FireEffect.logbook (device.name ++ " Button " ++ toString button_id)
           "Press event"]
    | none => []

/-- The loop body of `fire_device_triggers`: `BUTTON_EVENTS.get(dpid)` must
be truthy (a non-empty string) and `keyNo` truthy (a non-zero int); `press`
triggers the button entity and returns, `rotate` is skipped, anything else
fires `dali_center_button_event` plus a logbook line and continues. -/
def fireLoop (env : TriggerEnv) (device_id device_name : String) :
    List TriggerProp → List FireEffect
  | [] => []
  | prop :: rest =>
    match prop.dpid.bind env.buttonEvents, prop.keyNo with
    | some event_type, some key_no =>
      if event_type ≠ "" ∧ key_no ≠ 0 then
        if event_type = "press" then
          triggerButtonPress env key_no
        else if event_type = "rotate" then
          fireLoop env device_id device_name rest
        else
          FireEffect.busEvent "dali_center_button_event" device_id
              ("button_" ++ toString key_no ++ "_" ++ event_type)
            :: FireEffect.logbook (device_name ++ " Button " ++ toString key_no)
              (pyTitle (event_type.replace "_" " ") ++ " event")
            :: fireLoop env device_id device_name rest
      else fireLoop env device_id device_name rest
    | _, _ => fireLoop env device_id device_name rest

/-- `device_trigger.fire_device_triggers`. -/
def fire_device_triggers (env : TriggerEnv) (device_id : String)
    (property_list : List TriggerProp) : List FireEffect :=
  let device_name := match env.device with
    | some d => d.name
    | none => "DALI Panel"
  fireLoop env device_id device_name property_list

/-- A property is a press trigger when its dpid maps to `press` in
`BUTTON_EVENTS` and its `keyNo` is truthy; such a property makes
`fire_device_triggers` return early. -/
def isPressProp (env : TriggerEnv) (prop : TriggerProp) : Prop :=
  prop.dpid.bind env.buttonEvents = some "press" ∧
    ∃ k, prop.keyNo = some k ∧ k ≠ 0

/-! ## __init__.py -/

/-- The five entries of the module's `_PLATFORMS` list. -/
inductive Platform
  | light | sensor | button | event | switch
deriving DecidableEq, Repr

/-- `_PLATFORMS` from `__init__.py`. -/
def PLATFORMS : List Platform :=
  [Platform.light, Platform.sensor, Platform.button,
   Platform.event, Platform.switch]

/-- Payload carried on a dispatcher signal by one of the four hooks. -/
inductive PushPayload
  | availability (available : Bool)
  | deviceStatus (property_list : List TriggerProp)
  | energy (value : Rat)
  | sensorOnOff (on_off : Bool)

/-- A dispatcher send: signal name and payload. -/
structure DispatchSignal where
  signal : String
  payload : PushPayload

/-- The `on_online_status` closure: signal
`dali_center_update_available_{unique_id}` with the availability flag. -/
def on_online_status (unique_id : String) (available : Bool) :
    DispatchSignal :=
  ⟨"dali_center_update_available_" ++ unique_id,
   PushPayload.availability available⟩

/-- The `on_device_status` closure: signal
`dali_center_update_{unique_id}` with the property list. -/
def on_device_status (unique_id : String)
    (property_list : List TriggerProp) : DispatchSignal :=
  ⟨"dali_center_update_" ++ unique_id,
   PushPayload.deviceStatus property_list⟩

/-- The `on_energy_report` closure: signal
`dali_center_energy_update_{unique_id}` with the energy value. -/
def on_energy_report (unique_id : String) (energy : Rat) :
    DispatchSignal :=
  ⟨"dali_center_energy_update_" ++ unique_id, PushPayload.energy energy⟩

/-- The `on_sensor_on_off` closure: signal
`dali_center_sensor_on_off_{unique_id}` with the on/off flag. -/
def on_sensor_on_off (unique_id : String) (on_off : Bool) :
    DispatchSignal :=
  ⟨"dali_center_sensor_on_off_" ++ unique_id,
   PushPayload.sensorOnOff on_off⟩

/-- The four callback attributes `async_setup_entry` assigns on the
gateway client. -/
structure CallbackSet where
  onOnlineStatus : String → Bool → DispatchSignal
  onDeviceStatus : String → List TriggerProp → DispatchSignal
  onEnergyReport : String → Rat → DispatchSignal
  onSensorOnOff : String → Bool → DispatchSignal

/-- Outcome of `await gateway.connect()` under the 30-second timeout. -/
inductive ConnectResult
  | ok
  | gatewayError (msg : String)
  | timeout (msg : String)
deriving DecidableEq, Repr

/-- `gateway.get_version()` result. -/
structure GatewayVersion where
  software : String
  firmware : String
deriving DecidableEq, Repr

/-- Behaviour of the vendor gateway client during one setup run. -/
structure GatewayBehavior where
  connectResult : ConnectResult
  versionResult : Except String GatewayVersion

/-- How one run of `async_setup_entry` ends: `return True`, the explicit
`raise ConfigEntryNotReady`, or the `UnboundLocalError` from reading the
never-assigned `version` local. -/
inductive SetupTermination
  | returnedTrue
  | raisedNotReady (msg : String)
  | raisedUnboundLocal
deriving DecidableEq, Repr

/-- Everything one run of `async_setup_entry` did. -/
structure SetupRun where
  notifications : List String
  callbacksRegistered : Option CallbackSet
  deviceRegistered : Bool
  platformsForwarded : List Platform
  termination : SetupTermination

/-- The number of seconds given to `async_timeout.timeout` around
`gateway.connect()` in `async_setup_entry`. -/
def connectTimeoutSeconds : Nat := 30

/-- `__init__.async_setup_entry`, sequenced as the source is: connect under
the timeout (a `DaliGatewayError` notifies and raises `ConfigEntryNotReady`;
an `asyncio.TimeoutError` only notifies and execution continues), assign
the four callbacks, query the version (a `DaliGatewayError` notifies, after
which the unconditional reads of `version` raise `UnboundLocalError`),
register the gateway device and forward the platforms. -/
def async_setup_entry (gw : GatewayBehavior) : SetupRun :=
  match gw.connectResult with
  | ConnectResult.gatewayError msg =>
      { notifications := ["Connection Failed: " ++ msg]
        callbacksRegistered := none
        deviceRegistered := false
        platformsForwarded := []
        termination := SetupTermination.raisedNotReady
          "You can try to delete the gateway and add it again" }
  | other =>
      let connectNotifications := match other with
        | ConnectResult.timeout msg =>
            ["Connection Timeout: Timeout while connecting to DALI Center gateway. "
              ++ msg]
        | _ => []
      let callbacks : CallbackSet :=
        ⟨on_online_status, on_device_status, on_energy_report, on_sensor_on_off⟩
      match gw.versionResult with
      | Except.error msg =>
          { notifications := connectNotifications ++
              ["Version Query Failed: " ++ msg]
            callbacksRegistered := some callbacks
            deviceRegistered := false
            platformsForwarded := []
            termination := SetupTermination.raisedUnboundLocal }
      | Except.ok _ =>
          { notifications := connectNotifications
            callbacksRegistered := some callbacks
            deviceRegistered := true
            platformsForwarded := PLATFORMS
            termination := SetupTermination.returnedTrue }

/-! ## config_flow_helpers/entity_helpers.py : discovery -/

/-- A raised Python exception from a vendor discovery call:
`DaliGatewayError` or any other `Exception`. -/
inductive PyErr
  | daliGatewayError (msg : String)
  | otherException (msg : String)
deriving DecidableEq, Repr

/-- Behaviour of the three vendor discovery calls during one run. -/
structure DiscoveryBehavior where
  devicesResult : Except PyErr (List PyObj)
  groupsResult : Except PyErr (List PyObj)
  scenesResult : Except PyErr (List PyObj)

/-- The `discovered` dict: a key is present exactly when that kind was
requested. -/
structure Discovered where
  devices : Option (List PyObj)
  groups : Option (List PyObj)
  scenes : Option (List PyObj)
deriving DecidableEq, Repr

/-- `EntityDiscoveryHelper.discover_entities`: each requested kind is
attempted; the devices branch catches `DaliGatewayError` and then any
other `Exception`, the groups and scenes branches catch any `Exception`,
and every handler stores the empty list, so no exception escapes. -/
def discover_entities (gw : DiscoveryBehavior)
    (discover_devices discover_groups discover_scenes : Bool) : Discovered :=
  { devices :=
      if discover_devices then
        some (match gw.devicesResult with
          | Except.ok l => l
          | Except.error (PyErr.daliGatewayError _) => []
          | Except.error (PyErr.otherException _) => [])
      else none
    groups :=
      if discover_groups then
        some (match gw.groupsResult with
          | Except.ok l => l
          | Except.error _ => [])
      else none
    scenes :=
      if discover_scenes then
        some (match gw.scenesResult with
          | Except.ok l => l
          | Except.error _ => [])
      else none }

/-! ## config_flow_helpers/entity_helpers.py : entity selection schema -/

/-- A discovered device, group or scene as the schema code reads it:
`unique_id` and `name` always, `channel` and `id` for group/scene labels. -/
structure EntityRec where
  unique_id : String
  name : String
  channel : Int
  idNum : Int
deriving DecidableEq, Repr

/-- The `existing_selections` dict: each kind's key may be absent. -/
structure SelectionStore where
  devices : Option (List EntityRec)
  groups : Option (List EntityRec)
  scenes : Option (List EntityRec)

/-- Python truthiness of the `existing_selections` dict: non-empty. -/
def storeTruthy (es : SelectionStore) : Bool :=
  es.devices.isSome || es.groups.isSome || es.scenes.isSome

/-- Truthiness of the optional `existing_selections` argument. -/
def existingTruthy : Option SelectionStore → Bool
  | some es => storeTruthy es
  | none => false

/-- One kind's voluptuous field: the multi-select options dict and the
default selection. -/
structure KindSchema where
  options : List (String × String)
  defaults : List String
deriving DecidableEq, Repr

/-- The schema returned by `prepare_entity_selection_schema`: at most one
field per entity kind. -/
structure SelectionSchema where
  devices : Option KindSchema
  groups : Option KindSchema
  scenes : Option KindSchema

/-- One `if devices: ...` block of
`EntityDiscoveryHelper.prepare_entity_selection_schema` (the source
repeats the same block for devices, groups and scenes, differing only in
the label text, abstracted here as `label`).  An empty discovered list
contributes no field.  Otherwise: options are the discovered entries
(`[NEW]`-prefixed when diffing against provided selections), plus, when
diffing, `[REMOVED]` entries for stored entities that vanished; the
default is every option key on initial setup and the stored ids still
present among the options otherwise.  Python's unordered id set is
modelled by `List.dedup`; the claims below depend on membership only. -/
def buildKindSchema (items : List EntityRec)
    (existing : Option SelectionStore)
    (getKind : SelectionStore → Option (List EntityRec))
    (show_diff : Bool) (label : EntityRec → String) : Option KindSchema :=
  if items.isEmpty then none
  else
    let existing_ids : List String :=
      if existingTruthy existing then
        (((existing.bind getKind).getD []).map
          (fun e => e.unique_id)).dedup
      else []
    let opts1 : List (String × String) :=
      items.foldl (fun acc it =>
        dictInsert acc it.unique_id
          (if show_diff ∧ existingTruthy existing ∧
              ¬ existing_ids.contains it.unique_id then
            "[NEW] " ++ label it
          else label it)) []
    let opts2 : List (String × String) :=
      match existing with
      | some es =>
        if show_diff ∧ storeTruthy es ∧ (getKind es).isSome then
          let current_ids := (items.map (fun e => e.unique_id)).dedup
          ((getKind es).getD []).foldl (fun acc it =>
            if ¬ current_ids.contains it.unique_id then
              dictInsert acc it.unique_id ("[REMOVED] " ++ it.name)
            else acc) opts1
        else opts1
      | none => opts1
    let defaults : List String :=
      match existing with
      | none => opts2.map (fun p => p.1)
      | some _ => existing_ids.filter (fun uid => hasKey opts2 uid)
    some ⟨opts2, defaults⟩

/-- `EntityDiscoveryHelper.prepare_entity_selection_schema`: the three
per-kind blocks with their label formats. -/
def prepare_entity_selection_schema (devices groups scenes : List EntityRec)
    (existing_selections : Option SelectionStore) (show_diff : Bool) :
    SelectionSchema :=
  { devices := buildKindSchema devices existing_selections
      (fun es => es.devices) show_diff (fun e => e.name)
    groups := buildKindSchema groups existing_selections
      (fun es => es.groups) show_diff
      (fun e => e.name ++ " (Channel " ++ toString e.channel ++
        ", Group " ++ toString e.idNum ++ ")")
    scenes := buildKindSchema scenes existing_selections
      (fun es => es.scenes) show_diff
      (fun e => e.name ++ " (Channel " ++ toString e.channel ++
        ", Scene " ++ toString e.idNum ++ ")") }

/-! ## light.py : DaliCenterLight._handle_device_update -/

/-- A payload value as the light update handler can receive it. -/
inductive PropVal
  | pb (b : Bool)
  | pn (n : Int)
  | ps (s : String)
deriving DecidableEq, Repr

/-- One element of the status `property_list` as `_handle_device_update`
reads it: `prop.get("id")`, `prop.get("dpid")`, `prop.get("value")`. -/
structure LightProp where
  propId : Option Int
  dpid : Option Int
  value : Option PropVal
deriving DecidableEq, Repr

/-- `prop.get("id") or prop.get("dpid")`: Python `or` falls through on a
falsy left operand, so an `id` of 0 (or a missing `id`) yields `dpid`. -/
def effPropId (p : LightProp) : Option Int :=
  match p.propId with
  | some v => if v ≠ 0 then some v else p.dpid
  | none => p.dpid

/-- `d[k] = v` on the int-keyed `props` dict. -/
def dictInsertInt (d : List (Int × PropVal)) (k : Int) (v : PropVal) :
    List (Int × PropVal) :=
  if d.any (fun p => p.1 == k) then
    d.map (fun p => if p.1 == k then (k, v) else p)
  else
    d ++ [(k, v)]

/-- The `props` dict built by the first loop of `_handle_device_update`:
entries whose effective id or value is `None` are skipped, later entries
overwrite earlier ones. -/
def buildProps (property_list : List LightProp) : List (Int × PropVal) :=
  property_list.foldl (fun d p =>
    match effPropId p, p.value with
    | some pid, some v => dictInsertInt d pid v
    | _, _ => d) []

/-- Decimal digits of a Python `int(str)` body. -/
def digitsVal (cs : List Char) : Option Nat :=
  match cs with
  | [] => none
  | _ =>
    if cs.all Char.isDigit then
      some (cs.foldl (fun a c => a * 10 + (c.toNat - 48)) 0)
    else none

/-- Python `int(s)` on a string: optional sign then decimal digits,
`none` for a `ValueError`. -/
def parseDecimal (s : String) : Option Int :=
  match s.data with
  | '-' :: rest => (digitsVal rest).map (fun n => -(n : Int))
  | '+' :: rest => (digitsVal rest).map (fun n => (n : Int))
  | cs => (digitsVal cs).map (fun n => (n : Int))

/-- Python `int(x)` on a payload value: bools are 0/1, ints unchanged,
strings parsed as decimal; `none` models the raised error. -/
def pyToInt : PropVal → Option Int
  | PropVal.pb b => some (if b then 1 else 0)
  | PropVal.pn n => some n
  | PropVal.ps s => parseDecimal s

/-- Python `x == 0` on a payload value (`False == 0` is true). -/
def pyEqZero : PropVal → Bool
  | PropVal.pb b => !b
  | PropVal.pn n => n == 0
  | PropVal.ps _ => false

/-- A payload value as a number for Python arithmetic; `none` models the
`TypeError` a string operand raises. -/
def pyNum (v : PropVal) : Option Rat :=
  match v with
  | PropVal.pb b => some (if b then 1 else 0)
  | PropVal.pn n => some (n : Rat)
  | PropVal.ps _ => none

/-- A payload value that must be a string (for Python slicing); `none`
models the `TypeError` on any other type. -/
def pyStr (v : PropVal) : Option String :=
  match v with
  | PropVal.ps s => some s
  | _ => none

/-- The value of one hex digit. -/
def hexDigitVal (c : Char) : Option Nat :=
  if c.isDigit then some (c.toNat - 48)
  else if 'a' ≤ c ∧ c ≤ 'f' then some (c.toNat - 87)
  else if 'A' ≤ c ∧ c ≤ 'F' then some (c.toNat - 55)
  else none

/-- Python `int(s, 16)` on a digit run; `none` for a `ValueError`. -/
def parseHex (cs : List Char) : Option Nat :=
  match cs with
  | [] => none
  | _ => cs.foldlM (fun a c => (hexDigitVal c).map (fun d => a * 16 + d)) 0

/-- The color modes the entity can carry in `_supported_color_modes`. -/
inductive ColorMode
  | onoff | brightnessMode | colorTemp | hs | rgbw
deriving DecidableEq, Repr

/-- The mutable fields of `DaliCenterLight` that
`_handle_device_update` touches, plus the immutable supported-modes set. -/
structure LightState where
  st : Option PropVal
  white_level : Option Int
  brightness : Option Int
  color_temp_kelvin : Option PropVal
  hs_color : Option (Int × Rat)
  rgbw_color : Option (Int × Int × Int × Int)
  supported_color_modes : List ColorMode
deriving DecidableEq, Repr

/-- `colorsys.hsv_to_rgb`, with CPython floats as exact rationals. -/
def hsv_to_rgb (h s v : Rat) : Rat × Rat × Rat :=
  if s = 0 then (v, v, v)
  else
    let i0 : Int := pyTrunc (h * 6)
    let f : Rat := h * 6 - (i0 : Rat)
    let p := v * (1 - s)
    let q := v * (1 - s * f)
    let t := v * (1 - s * (1 - f))
    let i := i0 % 6
    if i = 0 then (v, t, p)
    else if i = 1 then (q, v, p)
    else if i = 2 then (p, v, t)
    else if i = 3 then (p, q, v)
    else if i = 4 then (t, p, v)
    else (v, p, q)

/-- The `if 24 in props and ColorMode.RGBW in ...` block.  The second
component of the result is `true` when the Python code raises there. -/
def handleFrom24rgbw (s : LightState) (props : List (Int × PropVal)) :
    LightState × Bool :=
  match props.lookup 24 with
  | some v =>
    if s.supported_color_modes.contains ColorMode.rgbw then
      match pyStr v with
      | none => (s, true)
      | some hsv =>
        match parseHex (hsv.data.take 4),
            parseHex ((hsv.data.drop 4).take 4),
            parseHex ((hsv.data.drop 8).take 4) with
        | some h, some sv, some vv =>
          let h_norm : Rat := ((max 0 (min 360 (h : Int))) : Int) / 360
          let s_norm : Rat := ((max 0 (min 1000 (sv : Int))) : Int) / 1000
          let v_norm0 : Rat := ((max 0 (min 1000 (vv : Int))) : Int) / 1000
          let v_norm : Rat :=
            if v_norm0 = 0 ∧ s.rgbw_color = none then 1 else v_norm0
          let rgb := hsv_to_rgb h_norm s_norm v_norm
          let w := s.white_level.getD 0
          let newRgbw := (pyTrunc (rgb.1 * 255), pyTrunc (rgb.2.1 * 255),
            pyTrunc (rgb.2.2 * 255), w)
          ({ s with rgbw_color := some newRgbw }, false)
        | _, _, _ => (s, true)
    else (s, false)
  | none => (s, false)

/-- The `if 24 in props and ColorMode.HS in ...` block, then the RGBW
block. -/
def handleFrom24hs (s : LightState) (props : List (Int × PropVal)) :
    LightState × Bool :=
  match props.lookup 24 with
  | some v =>
    if s.supported_color_modes.contains ColorMode.hs then
      match pyStr v with
      | none => (s, true)
      | some hsv =>
        match parseHex (hsv.data.take 4),
            parseHex ((hsv.data.drop 4).take 4) with
        | some h, some sv =>
            handleFrom24rgbw
              { s with hs_color := some ((h : Int), (sv : Rat) / 10) } props
        | _, _ => (s, true)
    else handleFrom24rgbw s props
  | none => handleFrom24rgbw s props

/-- The `if 23 in props and ColorMode.COLOR_TEMP in ...` block, then the
two 24-blocks. -/
def handleFrom23 (s : LightState) (props : List (Int × PropVal)) :
    LightState × Bool :=
  let s3 := match props.lookup 23 with
    | some v =>
      if s.supported_color_modes.contains ColorMode.colorTemp then
        { s with color_temp_kelvin := some v }
      else s
    | none => s
  handleFrom24hs s3 props

/-- The `if 22 in props:` brightness block: value 0 with a previously
unset brightness yields 255, anything else `int(value / 1000 * 255)`;
then the later blocks. -/
def handleFrom22 (s : LightState) (props : List (Int × PropVal)) :
    LightState × Bool :=
  match props.lookup 22 with
  | some bv =>
    if pyEqZero bv ∧ s.brightness = none then
      handleFrom23 { s with brightness := some 255 } props
    else
      match pyNum bv with
      | none => (s, true)
      | some q =>
        handleFrom23
          { s with brightness := some (pyTrunc (q / 1000 * 255)) } props
  | none => handleFrom23 s props

/-- `DaliCenterLight._handle_device_update`, state-passing: build the
`props` dict, then run the id-20 state block, the id-21 white-level block
(patching a present rgbw tuple) and the remaining blocks in source order.
The `Bool` is `true` when the Python code raises partway (the assignments
made before the raise persist on the entity). -/
def handle_device_update (s0 : LightState) (property_list : List LightProp) :
    LightState × Bool :=
  let props := buildProps property_list
  let s1 := match props.lookup 20 with
    | some v => { s0 with st := some v }
    | none => s0
  match props.lookup 21 with
  | some v =>
    match pyToInt v with
    | none => (s1, true)
    | some w =>
      let s2a := { s1 with white_level := some w }
      let s2 := match s2a.rgbw_color with
        | some (r, g, b, _) => { s2a with rgbw_color := some (r, g, b, w) }
        | none => s2a
      handleFrom22 s2 props
  | none => handleFrom22 s1 props

/-- Concrete trigger environment used by witnesses: dpid 1 is `press`,
dpid 2 `double_press`, dpid 3 `rotate`; one panel device with two button
entities. -/
def witnessTriggerEnv : TriggerEnv :=
  { buttonEvents := fun d =>
      if d = 1 then some "press"
      else if d = 2 then some "double_press"
      else if d = 3 then some "rotate"
      else none
    device := some ⟨"Panel"⟩
    entities := [⟨"button", "gw1_btn_2", "button.panel_b2"⟩,
                 ⟨"button", "gw1_btn_1", "button.panel_b1"⟩] }

/-- The claim's reading of one kind's schema field: an empty discovered
list contributes no field; otherwise the field's default selection is,
on initial setup (`existing_selections` is `None`), every discovered
unique id of the kind, and, on re-discovery, exactly the previously
stored unique ids of the kind that still appear among the presented
options. -/
def kindFieldSpec (items : List EntityRec)
    (existing : Option SelectionStore)
    (getKind : SelectionStore → Option (List EntityRec))
    (field : Option KindSchema) : Prop :=
  (items = [] → field = none) ∧
  (items ≠ [] → ∃ k, field = some k ∧
    (existing = none →
      ∀ uid, uid ∈ k.defaults ↔ ∃ it ∈ items, it.unique_id = uid) ∧
    (∀ es, existing = some es →
      ∀ uid, uid ∈ k.defaults ↔
        ((∃ it ∈ (getKind es).getD [], it.unique_id = uid) ∧
          uid ∈ k.options.map Prod.fst)))

/-! ## Theorems -/

/-- C3: `get_panel_button_count` maps `"0302"`, `"0304"`, `"0306"`,
`"0308"` to 2, 4, 6, 8 and returns the default 4 for every other device
type string, the empty string included. -/
theorem C3_get_panel_button_count :
    get_panel_button_count "0302" = 2 ∧ get_panel_button_count "0304" = 4 ∧
    get_panel_button_count "0306" = 6 ∧ get_panel_button_count "0308" = 8 ∧
    ∀ s : String, s ∉ (["0302", "0304", "0306", "0308"] : List String) →
      get_panel_button_count s = 4 := by
  refine ⟨rfl, rfl, rfl, rfl, ?_⟩
  intro s hs
  simp only [List.mem_cons, List.mem_singleton, not_or] at hs
  obtain ⟨h1, h2, h3, h4, -⟩ := hs
  have e1 : (s == "0302") = false := beq_eq_false_iff_ne.mpr h1
  have e2 : (s == "0304") = false := beq_eq_false_iff_ne.mpr h2
  have e3 : (s == "0306") = false := beq_eq_false_iff_ne.mpr h3
  have e4 : (s == "0308") = false := beq_eq_false_iff_ne.mpr h4
  simp [get_panel_button_count, List.lookup, e1, e2, e3, e4]

/-- C1: a setup run whose connect and version query succeed registers the
four callback hooks — each turning a vendor push for a `unique_id` into
the dispatcher signal named in the claim, carrying that payload — and
forwards platform setup to exactly the five platforms light, sensor,
button, event, switch. -/
theorem C1_setup_callbacks_and_platforms (gw : GatewayBehavior)
    (v : GatewayVersion) (hconn : gw.connectResult = ConnectResult.ok)
    (hver : gw.versionResult = Except.ok v) :
    ∃ cbs : CallbackSet,
      (async_setup_entry gw).callbacksRegistered = some cbs ∧
      (∀ uid available, cbs.onOnlineStatus uid available =
        ⟨"dali_center_update_available_" ++ uid,
         PushPayload.availability available⟩) ∧
      (∀ uid pl, cbs.onDeviceStatus uid pl =
        ⟨"dali_center_update_" ++ uid, PushPayload.deviceStatus pl⟩) ∧
      (∀ uid e, cbs.onEnergyReport uid e =
        ⟨"dali_center_energy_update_" ++ uid, PushPayload.energy e⟩) ∧
      (∀ uid b, cbs.onSensorOnOff uid b =
        ⟨"dali_center_sensor_on_off_" ++ uid, PushPayload.sensorOnOff b⟩) ∧
      (async_setup_entry gw).platformsForwarded =
        [Platform.light, Platform.sensor, Platform.button,
         Platform.event, Platform.switch] := by
  obtain ⟨cr, vr⟩ := gw
  simp only at hconn hver
  subst hconn
  subst hver
  exact ⟨⟨on_online_status, on_device_status, on_energy_report,
      on_sensor_on_off⟩, rfl,
    fun uid a => rfl, fun uid pl => rfl, fun uid e => rfl, fun uid b => rfl,
    rfl⟩

/-- C1 witness: the successful run at a concrete gateway behaviour. -/
theorem C1_setup_callbacks_and_platforms_witness :
    ∃ cbs : CallbackSet,
      (async_setup_entry ⟨ConnectResult.ok,
          Except.ok ⟨"1.0", "2.0"⟩⟩).callbacksRegistered = some cbs ∧
      (∀ uid available, cbs.onOnlineStatus uid available =
        ⟨"dali_center_update_available_" ++ uid,
         PushPayload.availability available⟩) ∧
      (∀ uid pl, cbs.onDeviceStatus uid pl =
        ⟨"dali_center_update_" ++ uid, PushPayload.deviceStatus pl⟩) ∧
      (∀ uid e, cbs.onEnergyReport uid e =
        ⟨"dali_center_energy_update_" ++ uid, PushPayload.energy e⟩) ∧
      (∀ uid b, cbs.onSensorOnOff uid b =
        ⟨"dali_center_sensor_on_off_" ++ uid, PushPayload.sensorOnOff b⟩) ∧
      (async_setup_entry ⟨ConnectResult.ok,
          Except.ok ⟨"1.0", "2.0"⟩⟩).platformsForwarded =
        [Platform.light, Platform.sensor, Platform.button,
         Platform.event, Platform.switch] :=
  C1_setup_callbacks_and_platforms ⟨ConnectResult.ok, Except.ok ⟨"1.0", "2.0"⟩⟩
    ⟨"1.0", "2.0"⟩ rfl rfl

/-- C2 counterexample: a run whose connect attempt times out but whose
version query succeeds returns True and forwards platform setup, so a
failed (timed-out) connection does not prevent setup from completing. -/
theorem C2_counterexample_timeout_run_completes :
    (async_setup_entry ⟨ConnectResult.timeout "deadline",
        Except.ok ⟨"1.0", "2.0"⟩⟩).termination =
      SetupTermination.returnedTrue ∧
    (async_setup_entry ⟨ConnectResult.timeout "deadline",
        Except.ok ⟨"1.0", "2.0"⟩⟩).platformsForwarded = PLATFORMS :=
  ⟨rfl, rfl⟩

/-- C2 amended: the connect attempt runs under a 30-second timeout; a
`DaliGatewayError` from connect raises `ConfigEntryNotReady` after a
notification and platform setup is not forwarded, while a timeout is
merely caught and notified and setup continues — completing successfully
whenever the subsequent version query succeeds. -/
theorem C2_amended_connect_failure_behavior :
    connectTimeoutSeconds = 30 ∧
    (∀ (gw : GatewayBehavior) (msg : String),
      gw.connectResult = ConnectResult.gatewayError msg →
      (async_setup_entry gw).termination =
        SetupTermination.raisedNotReady
          "You can try to delete the gateway and add it again" ∧
      (async_setup_entry gw).platformsForwarded = [] ∧
      (async_setup_entry gw).deviceRegistered = false ∧
      ("Connection Failed: " ++ msg) ∈ (async_setup_entry gw).notifications) ∧
    (∀ (gw : GatewayBehavior) (msg : String) (ver : GatewayVersion),
      gw.connectResult = ConnectResult.timeout msg →
      gw.versionResult = Except.ok ver →
      (async_setup_entry gw).termination = SetupTermination.returnedTrue ∧
      (async_setup_entry gw).platformsForwarded = PLATFORMS) := by
  refine ⟨rfl, ?_, ?_⟩
  · intro gw msg hconn
    obtain ⟨cr, vr⟩ := gw
    simp only at hconn
    subst hconn
    exact ⟨rfl, rfl, rfl, List.mem_singleton.mpr rfl⟩
  · intro gw msg ver hconn hver
    obtain ⟨cr, vr⟩ := gw
    simp only at hconn hver
    subst hconn
    subst hver
    exact ⟨rfl, rfl⟩

/-- C9: whenever the version query raises a gateway error (after a
connect attempt that did not itself raise a gateway error), the error is
caught and a notification created, but the later unconditional read of
the unassigned `version` local raises, so setup does not return True, the
gateway device is never registered and platform setup is not forwarded. -/
theorem C9_version_error_aborts_setup (gw : GatewayBehavior) (msg : String)
    (hconn : ∀ m, gw.connectResult ≠ ConnectResult.gatewayError m)
    (hver : gw.versionResult = Except.error msg) :
    (async_setup_entry gw).termination =
      SetupTermination.raisedUnboundLocal ∧
    (async_setup_entry gw).termination ≠ SetupTermination.returnedTrue ∧
    (async_setup_entry gw).deviceRegistered = false ∧
    (async_setup_entry gw).platformsForwarded = [] ∧
    ("Version Query Failed: " ++ msg) ∈
      (async_setup_entry gw).notifications := by
  obtain ⟨cr, vr⟩ := gw
  simp only at hconn hver
  subst hver
  cases cr with
  | gatewayError m => exact absurd rfl (hconn m)
  | ok =>
    refine ⟨rfl, ?_, rfl, rfl, List.mem_singleton.mpr rfl⟩
    intro h
    exact SetupTermination.noConfusion h
  | timeout _ =>
    refine ⟨rfl, ?_, rfl, rfl, ?_⟩
    · intro h
      exact SetupTermination.noConfusion h
    · simp [async_setup_entry]

/-- C9 witness: the aborting run at a concrete gateway behaviour. -/
theorem C9_version_error_aborts_setup_witness :
    (async_setup_entry ⟨ConnectResult.ok,
        Except.error "query refused"⟩).termination =
      SetupTermination.raisedUnboundLocal ∧
    (async_setup_entry ⟨ConnectResult.ok,
        Except.error "query refused"⟩).termination ≠
      SetupTermination.returnedTrue ∧
    (async_setup_entry ⟨ConnectResult.ok,
        Except.error "query refused"⟩).deviceRegistered = false ∧
    (async_setup_entry ⟨ConnectResult.ok,
        Except.error "query refused"⟩).platformsForwarded = [] ∧
    ("Version Query Failed: " ++ "query refused") ∈
      (async_setup_entry ⟨ConnectResult.ok,
        Except.error "query refused"⟩).notifications :=
  C9_version_error_aborts_setup ⟨ConnectResult.ok, Except.error "query refused"⟩
    "query refused" (fun _ h => ConnectResult.noConfusion h) rfl

/-- C8: `discover_entities` swallows every discovery exception: the
result has a key exactly for each requested kind, and a requested kind
whose gateway call raised maps to the empty list while the other
requested kinds are still attempted (their keys are present too). -/
theorem C8_discover_entities_swallows_errors :
    ∀ (gw : DiscoveryBehavior) (dd dg ds : Bool),
      ((discover_entities gw dd dg ds).devices.isSome ↔ dd = true) ∧
      ((discover_entities gw dd dg ds).groups.isSome ↔ dg = true) ∧
      ((discover_entities gw dd dg ds).scenes.isSome ↔ ds = true) ∧
      (∀ e, gw.devicesResult = Except.error e → dd = true →
        (discover_entities gw dd dg ds).devices = some []) ∧
      (∀ e, gw.groupsResult = Except.error e → dg = true →
        (discover_entities gw dd dg ds).groups = some []) ∧
      (∀ e, gw.scenesResult = Except.error e → ds = true →
        (discover_entities gw dd dg ds).scenes = some []) := by
  intro gw dd dg ds
  obtain ⟨dr, gr, sr⟩ := gw
  refine ⟨?_, ?_, ?_, ?_, ?_, ?_⟩
  · cases dd <;> simp [discover_entities]
  · cases dg <;> simp [discover_entities]
  · cases ds <;> simp [discover_entities]
  · intro e he hdd
    subst hdd
    simp only at he
    subst he
    cases e <;> simp [discover_entities]
  · intro e he hdg
    subst hdg
    simp only at he
    subst he
    cases e <;> simp [discover_entities]
  · intro e he hds
    subst hds
    simp only at he
    subst he
    cases e <;> simp [discover_entities]

/-- C4: `fire_device_triggers` classifies one payload property by its
`BUTTON_EVENTS` entry and `keyNo`: a truthy `press` presses the button
entity whose unique id ends in `_btn_{keyNo}`, a truthy `rotate` fires
nothing, any other truthy event fires the `dali_center_button_event` bus
event with `device_id` and `trigger_type = button_{keyNo}_{event_type}`
(plus a logbook line), and a property with a falsy event type or falsy
`keyNo` fires nothing. -/
theorem C4_fire_device_triggers_cases (env : TriggerEnv)
    (device_id : String) (prop : TriggerProp) :
    (∀ (k : Int) (d : DeviceEntry) (e : EntityEntry),
      prop.dpid.bind env.buttonEvents = some "press" →
      prop.keyNo = some k → k ≠ 0 → env.device = some d →
      env.entities.find? (fun en => en.domain == "button" &&
        en.unique_id.endsWith ("_btn_" ++ toString k)) = some e →
      fire_device_triggers env device_id [prop] =
        [FireEffect.pressService e.entity_id,
         FireEffect.logbook (d.name ++ " Button " ++ toString k)
           "Press event"]) ∧
    (∀ k : Int, prop.dpid.bind env.buttonEvents = some "rotate" →
      prop.keyNo = some k → k ≠ 0 →
      fire_device_triggers env device_id [prop] = []) ∧
    (∀ (k : Int) (et : String), prop.dpid.bind env.buttonEvents = some et →
      prop.keyNo = some k → k ≠ 0 → et ≠ "" → et ≠ "press" → et ≠ "rotate" →
      fire_device_triggers env device_id [prop] =
        [FireEffect.busEvent "dali_center_button_event" device_id
          ("button_" ++ toString k ++ "_" ++ et),
         FireEffect.logbook
           ((match env.device with
             | some d => d.name
             | none => "DALI Panel") ++ " Button " ++ toString k)
           (pyTitle (et.replace "_" " ") ++ " event")]) ∧
    ((prop.dpid.bind env.buttonEvents = none ∨
      prop.dpid.bind env.buttonEvents = some "" ∨
      prop.keyNo = none ∨ prop.keyNo = some 0) →
      fire_device_triggers env device_id [prop] = []) := by
  refine ⟨?_, ?_, ?_, ?_⟩
  · intro k d e hbind hk hk0 hd he
    simp [fire_device_triggers, fireLoop, hbind, hk, hk0,
      triggerButtonPress, hd, he]
  · intro k hbind hk hk0
    simp [fire_device_triggers, fireLoop, hbind, hk, hk0]
  · intro k et hbind hk hk0 hne hnp hnr
    simp [fire_device_triggers, fireLoop, hbind, hk, hk0, hne, hnp, hnr]
  · intro h
    rcases h with h | h | h | h
    · cases hk : prop.keyNo <;>
        simp [fire_device_triggers, fireLoop, h, hk]
    · cases hk : prop.keyNo <;>
        simp [fire_device_triggers, fireLoop, h, hk]
    · cases hb : prop.dpid.bind env.buttonEvents <;>
        simp [fire_device_triggers, fireLoop, h, hb]
    · cases hb : prop.dpid.bind env.buttonEvents <;>
        simp [fire_device_triggers, fireLoop, h, hb]

/-- C10 helper: `fireLoop` on a prefix of non-press properties followed by
a press property ignores everything after the press property. -/
theorem fireLoop_press_early (env : TriggerEnv) (did dn : String)
    (prop : TriggerProp) (post : List TriggerProp)
    (hpress : isPressProp env prop) :
    ∀ pre : List TriggerProp, (∀ q ∈ pre, ¬ isPressProp env q) →
      fireLoop env did dn (pre ++ prop :: post) =
        fireLoop env did dn (pre ++ [prop])
  | [], _ => by
      obtain ⟨hbind, k, hk, hk0⟩ := hpress
      simp [fireLoop, hbind, hk, hk0]
  | q :: rest, hpre => by
      have hrest : ∀ r ∈ rest, ¬ isPressProp env r :=
        fun r hr => hpre r (List.mem_cons_of_mem q hr)
      have hq : ¬ isPressProp env q := hpre q (List.mem_cons_self q rest)
      have ih := fireLoop_press_early env did dn prop post hpress rest hrest
      simp only [List.cons_append, fireLoop]
      cases hbe : q.dpid.bind env.buttonEvents with
      | none => exact ih
      | some et =>
        cases hke : q.keyNo with
        | none => exact ih
        | some k =>
          by_cases htr : et ≠ "" ∧ k ≠ 0
          · have hetp : et ≠ "press" := by
              intro hp
              exact hq ⟨hp ▸ hbe, k, hke, htr.2⟩
            by_cases hrot : et = "rotate"
            · simp [htr, hetp, hrot, ih]
            · simp [htr, hetp, hrot, ih]
          · simp [htr, ih]

/-- C10: within one `fire_device_triggers` call, the first property whose
dpid maps to `press` with a truthy `keyNo` stops processing: every later
property is ignored, so the call equals the call on the truncated
payload. -/
theorem C10_press_returns_early (env : TriggerEnv) (device_id : String)
    (pre post : List TriggerProp) (prop : TriggerProp)
    (hpress : isPressProp env prop)
    (hpre : ∀ q ∈ pre, ¬ isPressProp env q) :
    fire_device_triggers env device_id (pre ++ prop :: post) =
      fire_device_triggers env device_id (pre ++ [prop]) := by
  unfold fire_device_triggers
  exact fireLoop_press_early env device_id _ prop post hpress pre hpre

/-- C10 witness: with a press property first, a later double-press
property is ignored. -/
theorem C10_press_returns_early_witness :
    fire_device_triggers witnessTriggerEnv "dev1"
        ([] ++ (⟨some 1, some 1⟩ : TriggerProp) :: [⟨some 2, some 3⟩]) =
      fire_device_triggers witnessTriggerEnv "dev1"
        ([] ++ [(⟨some 1, some 1⟩ : TriggerProp)]) :=
  C10_press_returns_early witnessTriggerEnv "dev1" [] [⟨some 2, some 3⟩]
    ⟨some 1, some 1⟩ ⟨rfl, 1, rfl, one_ne_zero⟩
    (fun q hq => absurd hq (List.not_mem_nil q))

/-- C5 helper: when every element has the key, `mapM` produces the key
list and membership in it is existence of a source element with that
value. -/
theorem mapM_lookup_keys (attr : String) :
    ∀ l : List PyObj, (∀ o ∈ l, (o.lookup attr).isSome) →
      ∃ keys : List String, l.mapM (fun o => o.lookup attr) = some keys ∧
        ∀ k2 : String, k2 ∈ keys ↔ ∃ o ∈ l, o.lookup attr = some k2
  | [], _ => ⟨[], rfl, by simp⟩
  | o :: rest, h => by
      obtain ⟨k, hk⟩ :=
        Option.isSome_iff_exists.mp (h o (List.mem_cons_self o rest))
      obtain ⟨keys, hm, hmem⟩ := mapM_lookup_keys attr rest
        (fun o2 ho2 => h o2 (List.mem_cons_of_mem o ho2))
      refine ⟨k :: keys, ?_, ?_⟩
      · rw [List.mapM_cons, hk, hm]
        rfl
      · intro k2
        constructor
        · intro hmem2
          rcases List.mem_cons.mp hmem2 with rfl | htail
          · exact ⟨o, List.mem_cons_self o rest, hk⟩
          · obtain ⟨o2, ho2, hl⟩ := (hmem k2).mp htail
            exact ⟨o2, List.mem_cons_of_mem o ho2, hl⟩
        · rintro ⟨o2, ho2, hl⟩
          rcases List.mem_cons.mp ho2 with rfl | htail
          · have hkk : k = k2 := by
              rw [hk] at hl
              exact Option.some.inj hl
            subst hkk
            exact List.mem_cons_self _ _
          · exact List.mem_cons_of_mem k ((hmem k2).mpr ⟨o2, htail, hl⟩)

/-- C5 helper: the comprehension over a key-complete list equals the
specification filter against the other list. -/
theorem comprehensionFilter_spec (attr : String) (other : List PyObj)
    (keys : List String)
    (hkeys : ∀ k2 : String, k2 ∈ keys ↔ ∃ o ∈ other, o.lookup attr = some k2) :
    ∀ l : List PyObj, (∀ o ∈ l, (o.lookup attr).isSome) →
      comprehensionFilter l attr keys = some (specUniqueAgainst l other attr)
  | [], _ => by simp [comprehensionFilter, specUniqueAgainst]
  | o :: rest, h => by
      obtain ⟨k, hk⟩ :=
        Option.isSome_iff_exists.mp (h o (List.mem_cons_self o rest))
      have ih := comprehensionFilter_spec attr other keys hkeys rest
        (fun o2 ho2 => h o2 (List.mem_cons_of_mem o ho2))
      have hpred : (other.all (fun o2 =>
          !(o2.lookup attr == o.lookup attr)) = true) ↔
          ¬ (keys.contains k = true) := by
        rw [List.elem_iff, hkeys k]
        simp [List.all_eq_true, hk, not_exists]
      simp only [comprehensionFilter, hk, ih, Option.some_bind,
        Option.bind_eq_bind]
      by_cases hc : keys.contains k = true
      · have hnp : ¬ (other.all (fun o2 =>
            !(o2.lookup attr == o.lookup attr)) = true) := by
          rw [hpred]
          exact not_not_intro hc
        simp [specUniqueAgainst, List.filter_cons, hc, hnp]
        exact List.elem_iff.mp hc
      · have hp : other.all (fun o2 =>
            !(o2.lookup attr == o.lookup attr)) = true := hpred.mpr hc
        simp [specUniqueAgainst, List.filter_cons, hc, hp]
        exact fun hm => hc (List.elem_iff.mpr hm)

/-- C5: when every element of both lists carries `attr_name`,
`find_set_differences` returns exactly the order-preserving filters of
each list to the elements whose value occurs in no element of the other
list. -/
theorem C5_find_set_differences (list1 list2 : List PyObj)
    (attr_name : String)
    (h1 : ∀ o ∈ list1, (o.lookup attr_name).isSome)
    (h2 : ∀ o ∈ list2, (o.lookup attr_name).isSome) :
    find_set_differences list1 list2 attr_name =
      some (specUniqueAgainst list1 list2 attr_name,
            specUniqueAgainst list2 list1 attr_name) := by
  obtain ⟨keys1, hm1, hk1⟩ := mapM_lookup_keys attr_name list1 h1
  obtain ⟨keys2, hm2, hk2⟩ := mapM_lookup_keys attr_name list2 h2
  have hc1 := comprehensionFilter_spec attr_name list2 keys2 hk2 list1 h1
  have hc2 := comprehensionFilter_spec attr_name list1 keys1 hk1 list2 h2
  unfold find_set_differences
  rw [hm1, hm2]
  simp [hc1, hc2]

/-- C5 witness: a concrete diff where `b` is shared, `a` is only in the
first list and `c` only in the second. -/
theorem C5_find_set_differences_witness :
    find_set_differences [[("unique_id", "a")], [("unique_id", "b")]]
        [[("unique_id", "b")], [("unique_id", "c")]] "unique_id" =
      some (specUniqueAgainst [[("unique_id", "a")], [("unique_id", "b")]]
              [[("unique_id", "b")], [("unique_id", "c")]] "unique_id",
            specUniqueAgainst [[("unique_id", "b")], [("unique_id", "c")]]
              [[("unique_id", "a")], [("unique_id", "b")]] "unique_id") :=
  C5_find_set_differences
    [[("unique_id", "a")], [("unique_id", "b")]]
    [[("unique_id", "b")], [("unique_id", "c")]] "unique_id"
    (by decide) (by decide)

/-- C6 helper: a dict has a key exactly when the key list has it. -/
theorem hasKey_iff (d : List (String × String)) (k : String) :
    hasKey d k = true ↔ k ∈ d.map Prod.fst := by
  unfold hasKey
  rw [List.any_eq_true]
  constructor
  · rintro ⟨p, hp, he⟩
    exact List.mem_map.mpr ⟨p, hp, beq_iff_eq.mp he⟩
  · intro hm
    obtain ⟨p, hp, he⟩ := List.mem_map.mp hm
    exact ⟨p, hp, beq_iff_eq.mpr he⟩

/-- C6 helper: `dictInsert` adds exactly its key to the key list. -/
theorem mem_keys_dictInsert (d : List (String × String)) (k v uid : String) :
    uid ∈ (dictInsert d k v).map Prod.fst ↔
      uid ∈ d.map Prod.fst ∨ uid = k := by
  unfold dictInsert
  by_cases h : d.any (fun p => p.1 == k) = true
  · rw [if_pos h]
    have hkeys : (d.map (fun p => if p.1 == k then (k, v) else p)).map Prod.fst
        = d.map Prod.fst := by
      rw [List.map_map]
      apply List.map_congr_left
      intro p hp
      by_cases hpk : p.1 = k
      · simp [hpk]
      · simp [Function.comp, beq_eq_false_iff_ne.mpr hpk]
    rw [hkeys]
    constructor
    · exact Or.inl
    · rintro (h1 | rfl)
      · exact h1
      · obtain ⟨p, hp, he⟩ := List.any_eq_true.mp h
        exact List.mem_map.mpr ⟨p, hp, beq_iff_eq.mp he⟩
  · rw [if_neg h]
    simp [List.map_append]

/-- C6 helper: folding `dictInsert` over the discovered entities makes
the key list carry exactly the initial keys and the entities' ids,
whatever labels are stored. -/
theorem mem_keys_foldl_insert (f : EntityRec → String) :
    ∀ (items : List EntityRec) (d : List (String × String)) (uid : String),
      uid ∈ (items.foldl (fun acc it =>
          dictInsert acc it.unique_id (f it)) d).map Prod.fst ↔
        (uid ∈ d.map Prod.fst ∨ ∃ it ∈ items, it.unique_id = uid)
  | [], d, uid => by simp
  | q :: rest, d, uid => by
      rw [List.foldl_cons,
        mem_keys_foldl_insert f rest (dictInsert d q.unique_id (f q)) uid,
        mem_keys_dictInsert]
      constructor
      · rintro ((h1 | h2) | ⟨it, hit, rfl⟩)
        · exact Or.inl h1
        · exact Or.inr ⟨q, List.mem_cons_self q rest, h2.symm⟩
        · exact Or.inr ⟨it, List.mem_cons_of_mem q hit, rfl⟩
      · rintro (h1 | ⟨it, hit, rfl⟩)
        · exact Or.inl (Or.inl h1)
        · rcases List.mem_cons.mp hit with rfl | htail
          · exact Or.inl (Or.inr rfl)
          · exact Or.inr ⟨it, htail, rfl⟩

/-- C6 helper: a falsy (empty) `existing_selections` dict has no kind
key present. -/
theorem storeTruthy_false (es : SelectionStore)
    (h : storeTruthy es = false) :
    es.devices = none ∧ es.groups = none ∧ es.scenes = none := by
  rcases es with ⟨d, g, s⟩
  cases d <;> cases g <;> cases s <;> simp_all [storeTruthy]

/-- C6 helper: one schema block satisfies the claim's per-kind reading,
for any kind accessor consistent with dict truthiness. -/
theorem buildKindSchema_spec (items : List EntityRec)
    (existing : Option SelectionStore)
    (getKind : SelectionStore → Option (List EntityRec))
    (show_diff : Bool) (label : EntityRec → String)
    (hg : ∀ es, storeTruthy es = false → getKind es = none) :
    kindFieldSpec items existing getKind
      (buildKindSchema items existing getKind show_diff label) := by
  constructor
  · intro hnil
    subst hnil
    rfl
  · intro hne
    have hie : items.isEmpty = false := by
      cases items with
      | nil => exact absurd rfl hne
      | cons a l => rfl
    cases existing with
    | none =>
      simp only [buildKindSchema, hie, Bool.false_eq_true, if_false,
        existingTruthy]
      refine ⟨_, rfl, ?_, ?_⟩
      · intro _ uid
        rw [mem_keys_foldl_insert]
        simp
      · intro es h
        exact Option.noConfusion h
    | some es =>
      simp only [buildKindSchema, hie, Bool.false_eq_true, if_false,
        existingTruthy]
      refine ⟨_, rfl, ?_, ?_⟩
      · intro h
        exact Option.noConfusion h
      · intro es2 h uid
        have hes : es = es2 := Option.some.inj h
        subst hes
        rw [List.mem_filter, hasKey_iff]
        by_cases hT : storeTruthy es = true
        · simp only [hT, if_true, Option.some_bind, List.mem_dedup,
            List.mem_map]
        · rw [Bool.not_eq_true] at hT
          simp [hT, hg es hT]

/-- C6: in the entity selection schema, an entity kind with no discovered
entries contributes no field; otherwise its default selection is all
discovered unique ids on initial setup and exactly the previously stored
unique ids still among the presented options on re-discovery. -/
theorem C6_selection_schema_defaults :
    ∀ (devices groups scenes : List EntityRec)
      (existing_selections : Option SelectionStore) (show_diff : Bool),
      kindFieldSpec devices existing_selections (fun es => es.devices)
        (prepare_entity_selection_schema devices groups scenes
          existing_selections show_diff).devices ∧
      kindFieldSpec groups existing_selections (fun es => es.groups)
        (prepare_entity_selection_schema devices groups scenes
          existing_selections show_diff).groups ∧
      kindFieldSpec scenes existing_selections (fun es => es.scenes)
        (prepare_entity_selection_schema devices groups scenes
          existing_selections show_diff).scenes := by
  intro devices groups scenes existing_selections show_diff
  refine ⟨?_, ?_, ?_⟩
  · exact buildKindSchema_spec devices existing_selections _ show_diff _
      (fun es h => (storeTruthy_false es h).1)
  · exact buildKindSchema_spec groups existing_selections _ show_diff _
      (fun es h => (storeTruthy_false es h).2.1)
  · exact buildKindSchema_spec scenes existing_selections _ show_diff _
      (fun es h => (storeTruthy_false es h).2.2)

/-- C7 helper: the RGBW block never touches `_brightness`. -/
theorem brightness_handleFrom24rgbw (s : LightState)
    (props : List (Int × PropVal)) :
    (handleFrom24rgbw s props).1.brightness = s.brightness := by
  unfold handleFrom24rgbw
  repeat' split
  all_goals rfl

/-- C7 helper: the HS block never touches `_brightness`. -/
theorem brightness_handleFrom24hs (s : LightState)
    (props : List (Int × PropVal)) :
    (handleFrom24hs s props).1.brightness = s.brightness := by
  unfold handleFrom24hs
  repeat' split
  all_goals first
    | rfl
    | rw [brightness_handleFrom24rgbw]

/-- C7 helper: the color-temperature block never touches `_brightness`. -/
theorem brightness_handleFrom23 (s : LightState)
    (props : List (Int × PropVal)) :
    (handleFrom23 s props).1.brightness = s.brightness := by
  unfold handleFrom23
  repeat' split
  all_goals rw [brightness_handleFrom24hs]

/-- C7 helper: with an integer value under key 22, the brightness block
assigns exactly the claimed value. -/
theorem handleFrom22_brightness (s : LightState)
    (props : List (Int × PropVal)) (v : Int)
    (h22 : props.lookup 22 = some (PropVal.pn v)) :
    (handleFrom22 s props).1.brightness =
      (if v = 0 ∧ s.brightness = none then some 255
       else some (pyTrunc ((v : Rat) / 1000 * 255))) := by
  unfold handleFrom22
  rw [h22]
  by_cases hv : v = 0
  · by_cases hb : s.brightness = none
    · simp [pyEqZero, hv, hb, brightness_handleFrom23]
    · simp [pyEqZero, hv, hb, pyNum, brightness_handleFrom23]
  · by_cases hb : s.brightness = none
    · simp [pyEqZero, hv, hb, pyNum, brightness_handleFrom23]
    · simp [pyEqZero, hv, hb, pyNum, brightness_handleFrom23]

/-- C7 helper: a payload of properties whose effective id or value is
missing builds an empty `props` dict. -/
theorem buildProps_skipped :
    ∀ pl : List LightProp,
      (∀ p ∈ pl, effPropId p = none ∨ p.value = none) →
      ∀ d : List (Int × PropVal),
        pl.foldl (fun d p =>
          match effPropId p, p.value with
          | some pid, some v => dictInsertInt d pid v
          | _, _ => d) d = d
  | [], _, _ => rfl
  | p :: rest, h, d => by
      rw [List.foldl_cons]
      have hstep : (match effPropId p, p.value with
          | some pid, some v => dictInsertInt d pid v
          | _, _ => d) = d := by
        rcases h p (List.mem_cons_self p rest) with hp | hp
        · rw [hp]
        · rw [hp]
          cases effPropId p <;> rfl
      rw [hstep]
      exact buildProps_skipped rest
        (fun q hq => h q (List.mem_cons_of_mem p hq)) d

/-- C7 helper: `buildProps` of a fully skipped payload is empty. -/
theorem buildProps_nil (pl : List LightProp)
    (h : ∀ p ∈ pl, effPropId p = none ∨ p.value = none) :
    buildProps pl = [] := by
  unfold buildProps
  exact buildProps_skipped pl h []

/-- C7: handling a device-status payload whose `props` dict carries an
integer `v` under id 22 (with a convertible white-level entry if id 21 is
also present) sets brightness to `int(v / 1000 * 255)`, except that a 0
with previously unset brightness yields 255; and a payload all of whose
properties lack an effective id or a value leaves the entity state
unchanged. -/
theorem C7_light_brightness (s : LightState) (pl : List LightProp)
    (v : Int) :
    ((buildProps pl).lookup 22 = some (PropVal.pn v) →
     (∀ w, (buildProps pl).lookup 21 = some w → (pyToInt w).isSome) →
     (handle_device_update s pl).1.brightness =
       (if v = 0 ∧ s.brightness = none then some 255
        else some (pyTrunc ((v : Rat) / 1000 * 255)))) ∧
    ((∀ p ∈ pl, effPropId p = none ∨ p.value = none) →
     handle_device_update s pl = (s, false)) := by
  constructor
  · intro h22 h21
    unfold handle_device_update
    rcases h20 : (buildProps pl).lookup 20 with _ | v20 <;>
      simp only [h20] <;>
      rcases h21l : (buildProps pl).lookup 21 with _ | w <;>
        simp only [h21l]
    · rw [handleFrom22_brightness _ _ v h22]
    · obtain ⟨wi, hwi⟩ :=
        Option.isSome_iff_exists.mp (h21 w h21l)
      rw [hwi]
      rcases hr : s.rgbw_color with _ | ⟨r, g, b, w4⟩ <;>
        simp only [hr] <;>
        rw [handleFrom22_brightness _ _ v h22]
    · rw [handleFrom22_brightness _ _ v h22]
    · obtain ⟨wi, hwi⟩ :=
        Option.isSome_iff_exists.mp (h21 w h21l)
      rw [hwi]
      rcases hr : s.rgbw_color with _ | ⟨r, g, b, w4⟩ <;>
        simp only [hr] <;>
        rw [handleFrom22_brightness _ _ v h22]
  · intro hsk
    have hnil : buildProps pl = [] := buildProps_nil pl hsk
    simp only [handle_device_update, hnil]
    simp [handleFrom22, handleFrom23, handleFrom24hs, handleFrom24rgbw,
      List.lookup]

end DaliCenter
